import Mathlib

/-!
Verification of the pixel-to-geographic mapping and color-region selection
pipeline of the terrain feature extraction scripts.

The embedded functions come from:
- `terrain_extractor_app.js` (inside `components/ImageCanvas.tsx`):
  `pixelToLatLon`, `onImageClick` (tolerance window computation),
  `maskByColor`, `setGeoBounds`, the `picked` feature list;
- `lib/export.ts`: `exportGeoJSON`.

JavaScript floating-point numbers are modelled as rationals (`ℚ`), i.e. the
ideal-arithmetic semantics of the formulas; integer pixel channels as `ℤ`.
-/

namespace Terrain

/-- Geographic bounding box, as stored by `setGeoBounds` in
`terrain_extractor_app.js`: `geoBounds = { north, south, east, west }`. -/
structure GeoBounds where
  west : ℚ
  east : ℚ
  north : ℚ
  south : ℚ
  deriving Repr, DecidableEq

/-- Embedding of `pixelToLatLon(x, y)` from `terrain_extractor_app.js`:

    const lon = west + (x / canvas.width) * (east - west);
    const lat = north - (y / canvas.height) * (north - south);
    return [lon, lat];

`canvas.width` and `canvas.height` are passed explicitly as `w` and `h`.
No bounds check or clamping appears in the source. -/
def pixelToLatLon (x y : ℚ) (b : GeoBounds) (w h : ℚ) : ℚ × ℚ :=
  (b.west + (x / w) * (b.east - b.west),
   b.north - (y / h) * (b.north - b.south))

/-- Embedding of `setGeoBounds(north, south, east, west)` from
`terrain_extractor_app.js`:

    function setGeoBounds(north, south, east, west) {
      geoBounds = { north, south, east, west };
    }

The source stores the four values unconditionally; there is no validation
and no error path, so the embedding is a total function into `GeoBounds`. -/
def setGeoBounds (north south east west : ℚ) : GeoBounds :=
  { north := north, south := south, east := east, west := west }

/-- C1: For every pixel coordinate pair `(x, y)` — including values outside
the raster, which are not rejected or clamped — and every `GeoBounds` with
positive raster width and height, the pixel-to-geographic transform returns
exactly `(west + (x / w) * (east - west), north - (y / h) * (north - south))`;
out-of-range `x` or `y` extrapolate linearly by the same formula. -/
theorem pixelToLatLon_formula (x y : ℚ) (b : GeoBounds) (w h : ℚ)
    (hw : 0 < w) (hh : 0 < h) :
    pixelToLatLon x y b w h =
      (b.west + (x / w) * (b.east - b.west),
       b.north - (y / h) * (b.north - b.south)) := rfl

/-- Witness for C1 at a concrete out-of-range input (x = 700 on a 600-wide
raster), showing linear extrapolation. -/
theorem pixelToLatLon_formula_witness :
    (0 : ℚ) < 600 ∧ (0 : ℚ) < 400 ∧
    pixelToLatLon 700 (-50) ⟨0, 600, 400, 0⟩ 600 400 =
      (0 + (700 / 600) * (600 - 0), 400 - ((-50) / 400) * (400 - 0)) := by
  refine ⟨by norm_num, by norm_num,
    pixelToLatLon_formula 700 (-50) ⟨0, 600, 400, 0⟩ 600 400 (by norm_num)
      (by norm_num)⟩

/-- C5: With bounds `{west: 88.3, east: 88.6, north: 22.7, south: 22.5}` and a
600×400 raster, the transform maps pixel `(0, 0)` to exactly `(88.3, 22.7)`
and pixel `(600, 400)` to exactly `(88.6, 22.5)`. -/
theorem pixelToLatLon_roundtrip :
    pixelToLatLon 0 0 ⟨88.3, 88.6, 22.7, 22.5⟩ 600 400 = (88.3, 22.7) ∧
    pixelToLatLon 600 400 ⟨88.3, 88.6, 22.7, 22.5⟩ 600 400 = (88.6, 22.5) := by
  constructor <;> · simp only [pixelToLatLon]; norm_num

/-- C6: For `x, y` within raster bounds and fixed `GeoBounds` with
`east > west` and `north > south`, the transform is strictly monotonic:
`x1 < x2` gives strictly smaller longitude at `x1`, and `y1 < y2` gives
strictly greater latitude at `y1`. -/
theorem pixelToLatLon_monotone (b : GeoBounds) (w h x1 x2 y1 y2 x0 y0 : ℚ)
    (hw : 0 < w) (hh : 0 < h)
    (hew : b.west < b.east) (hns : b.south < b.north)
    (hx1 : 0 ≤ x1) (hx2 : x2 ≤ w) (hy1 : 0 ≤ y1) (hy2 : y2 ≤ h)
    (hx : x1 < x2) (hy : y1 < y2) :
    (pixelToLatLon x1 y0 b w h).1 < (pixelToLatLon x2 y0 b w h).1 ∧
    (pixelToLatLon x0 y2 b w h).2 < (pixelToLatLon x0 y1 b w h).2 := by
  constructor
  · simp only [pixelToLatLon]
    have hdiv : x1 / w < x2 / w := by
      exact div_lt_div_of_pos_right hx hw
    have hmul : (x1 / w) * (b.east - b.west) < (x2 / w) * (b.east - b.west) :=
      mul_lt_mul_of_pos_right hdiv (sub_pos.mpr hew)
    linarith
  · simp only [pixelToLatLon]
    have hdiv : y1 / h < y2 / h := by
      exact div_lt_div_of_pos_right hy hh
    have hmul : (y1 / h) * (b.north - b.south) < (y2 / h) * (b.north - b.south) :=
      mul_lt_mul_of_pos_right hdiv (sub_pos.mpr hns)
    linarith

/-- Witness for C6 at concrete inputs on a 600×400 raster. -/
theorem pixelToLatLon_monotone_witness :
    (pixelToLatLon 10 0 ⟨88.3, 88.6, 22.7, 22.5⟩ 600 400).1 <
      (pixelToLatLon 20 0 ⟨88.3, 88.6, 22.7, 22.5⟩ 600 400).1 ∧
    (pixelToLatLon 0 40 ⟨88.3, 88.6, 22.7, 22.5⟩ 600 400).2 <
      (pixelToLatLon 0 30 ⟨88.3, 88.6, 22.7, 22.5⟩ 600 400).2 :=
  pixelToLatLon_monotone ⟨88.3, 88.6, 22.7, 22.5⟩ 600 400 10 20 30 40 0 0
    (by norm_num) (by norm_num) (by norm_num) (by norm_num)
    (by norm_num) (by norm_num) (by norm_num) (by norm_num)
    (by norm_num) (by norm_num)

/-- The canvas raster as read by `ctx.getImageData(0, 0, canvas.width,
canvas.height)`: a flat RGBA byte array `data` where pixel `i` has its red,
green and blue channels at indices `i*4`, `i*4+1`, `i*4+2`. -/
structure Raster where
  width : ℕ
  height : ℕ
  data : List ℤ
  deriving Repr, DecidableEq

/-- Embedding of `maskByColor(lower, upper)` from `terrain_extractor_app.js`:

    const mask = new Uint8Array(canvas.width * canvas.height);
    for (let i = 0; i < mask.length; i++) {
      const j = i * 4;
      const r = imgData.data[j], g = imgData.data[j + 1], b = imgData.data[j + 2];
      mask[i] = (r >= lower[0] && r <= upper[0] &&
                g >= lower[1] && g <= upper[1] &&
                b >= lower[2] && b <= upper[2]) ? 1 : 0;
    }

`lower` and `upper` are per-channel triples; out-of-range reads default to 0
(irrelevant whenever `data` covers the raster). -/
def maskByColor (lower upper : ℤ × ℤ × ℤ) (img : Raster) : List ℕ :=
  (List.range (img.width * img.height)).map (fun i =>
    let j := i * 4
    let r := img.data.getD j 0
    let g := img.data.getD (j + 1) 0
    let b := img.data.getD (j + 2) 0
    if r ≥ lower.1 ∧ r ≤ upper.1 ∧
       g ≥ lower.2.1 ∧ g ≤ upper.2.1 ∧
       b ≥ lower.2.2 ∧ b ≤ upper.2.2 then 1 else 0)

/-- The per-channel window computation from `onImageClick` in
`terrain_extractor_app.js`, generalized over the tolerance value (the caller
fixes `tolerance = 30`):

    const lower = rgb.map(v => Math.max(0, v - tolerance));
    const upper = rgb.map(v => Math.min(255, v + tolerance));
    const mask = maskByColor(lower, upper);
-/
def computeMask (img : Raster) (target : ℤ × ℤ × ℤ) (tolerance : ℤ) : List ℕ :=
  maskByColor
    (max 0 (target.1 - tolerance),
     max 0 (target.2.1 - tolerance),
     max 0 (target.2.2 - tolerance))
    (min 255 (target.1 + tolerance),
     min 255 (target.2.1 + tolerance),
     min 255 (target.2.2 + tolerance))
    img

/-- C2: For every raster, target color with channels in `[0,255]` and
non-negative tolerance, the mask has exactly `width * height` entries; entry
`i` is 1 iff each of pixel `i`'s channels lies in the inclusive window
`[max(0, t - tol), min(255, t + tol)]` around the corresponding target
channel, and 0 otherwise; with `tolerance = 0`, entry `i` is 1 iff the pixel
equals the target exactly. -/
theorem computeMask_spec (img : Raster) (tr tg tb tolerance : ℤ)
    (htol : 0 ≤ tolerance)
    (htr : 0 ≤ tr ∧ tr ≤ 255) (htg : 0 ≤ tg ∧ tg ≤ 255)
    (htb : 0 ≤ tb ∧ tb ≤ 255)
    (i : ℕ) (hi : i < img.width * img.height) :
    (computeMask img (tr, tg, tb) tolerance).length = img.width * img.height ∧
    ((computeMask img (tr, tg, tb) tolerance).getD i 0 = 1 ↔
      (max 0 (tr - tolerance) ≤ img.data.getD (i * 4) 0 ∧
       img.data.getD (i * 4) 0 ≤ min 255 (tr + tolerance) ∧
       max 0 (tg - tolerance) ≤ img.data.getD (i * 4 + 1) 0 ∧
       img.data.getD (i * 4 + 1) 0 ≤ min 255 (tg + tolerance) ∧
       max 0 (tb - tolerance) ≤ img.data.getD (i * 4 + 2) 0 ∧
       img.data.getD (i * 4 + 2) 0 ≤ min 255 (tb + tolerance))) ∧
    ((computeMask img (tr, tg, tb) tolerance).getD i 0 = 1 ∨
     (computeMask img (tr, tg, tb) tolerance).getD i 0 = 0) ∧
    (tolerance = 0 →
      ((computeMask img (tr, tg, tb) tolerance).getD i 0 = 1 ↔
        (img.data.getD (i * 4) 0 = tr ∧
         img.data.getD (i * 4 + 1) 0 = tg ∧
         img.data.getD (i * 4 + 2) 0 = tb))) := by
  have hlen : (computeMask img (tr, tg, tb) tolerance).length =
      img.width * img.height := by
    simp [computeMask, maskByColor]
  have hget : (computeMask img (tr, tg, tb) tolerance).getD i 0 =
      (if max 0 (tr - tolerance) ≤ img.data.getD (i * 4) 0 ∧
          img.data.getD (i * 4) 0 ≤ min 255 (tr + tolerance) ∧
          max 0 (tg - tolerance) ≤ img.data.getD (i * 4 + 1) 0 ∧
          img.data.getD (i * 4 + 1) 0 ≤ min 255 (tg + tolerance) ∧
          max 0 (tb - tolerance) ≤ img.data.getD (i * 4 + 2) 0 ∧
          img.data.getD (i * 4 + 2) 0 ≤ min 255 (tb + tolerance)
       then 1 else 0) := by
    have hi2 : i < (computeMask img (tr, tg, tb) tolerance).length := by
      rw [hlen]; exact hi
    rw [List.getD_eq_getElem _ _ hi2]
    simp [computeMask, maskByColor, hi]
  refine ⟨hlen, ?_, ?_, ?_⟩
  · rw [hget]
    constructor
    · intro h1
      by_contra hc
      rw [if_neg hc] at h1
      exact absurd h1 (by norm_num)
    · intro hc
      rw [if_pos hc]
  · rw [hget]
    split
    · exact Or.inl rfl
    · exact Or.inr rfl
  · intro h0
    subst h0
    rw [hget]
    have e1 : max 0 (tr - 0) = tr := by omega
    have e2 : min 255 (tr + 0) = tr := by omega
    have e3 : max 0 (tg - 0) = tg := by omega
    have e4 : min 255 (tg + 0) = tg := by omega
    have e5 : max 0 (tb - 0) = tb := by omega
    have e6 : min 255 (tb + 0) = tb := by omega
    rw [e1, e2, e3, e4, e5, e6]
    constructor
    · intro h1
      by_contra hc
      have hnot : ¬(tr ≤ img.data.getD (i * 4) 0 ∧
          img.data.getD (i * 4) 0 ≤ tr ∧
          tg ≤ img.data.getD (i * 4 + 1) 0 ∧
          img.data.getD (i * 4 + 1) 0 ≤ tg ∧
          tb ≤ img.data.getD (i * 4 + 2) 0 ∧
          img.data.getD (i * 4 + 2) 0 ≤ tb) := by omega
      rw [if_neg hnot] at h1
      exact absurd h1 (by norm_num)
    · intro hc
      rw [if_pos (by omega)]

/-- Witness for C2: a 1×1 raster with pixel `(100, 150, 200)`, target
`(100, 150, 200)`, tolerance 0, at index 0. -/
theorem computeMask_spec_witness :
    (computeMask ⟨1, 1, [100, 150, 200, 255]⟩ (100, 150, 200) 0).length = 1 ∧
    ((computeMask ⟨1, 1, [100, 150, 200, 255]⟩ (100, 150, 200) 0).getD 0 0 = 1 ↔
      (max 0 (100 - 0) ≤ ([100, 150, 200, 255] : List ℤ).getD (0 * 4) 0 ∧
       ([100, 150, 200, 255] : List ℤ).getD (0 * 4) 0 ≤ min 255 (100 + 0) ∧
       max 0 (150 - 0) ≤ ([100, 150, 200, 255] : List ℤ).getD (0 * 4 + 1) 0 ∧
       ([100, 150, 200, 255] : List ℤ).getD (0 * 4 + 1) 0 ≤ min 255 (150 + 0) ∧
       max 0 (200 - 0) ≤ ([100, 150, 200, 255] : List ℤ).getD (0 * 4 + 2) 0 ∧
       ([100, 150, 200, 255] : List ℤ).getD (0 * 4 + 2) 0 ≤ min 255 (200 + 0))) ∧
    ((computeMask ⟨1, 1, [100, 150, 200, 255]⟩ (100, 150, 200) 0).getD 0 0 = 1 ∨
     (computeMask ⟨1, 1, [100, 150, 200, 255]⟩ (100, 150, 200) 0).getD 0 0 = 0) ∧
    ((0 : ℤ) = 0 →
      ((computeMask ⟨1, 1, [100, 150, 200, 255]⟩ (100, 150, 200) 0).getD 0 0 = 1 ↔
        (([100, 150, 200, 255] : List ℤ).getD (0 * 4) 0 = 100 ∧
         ([100, 150, 200, 255] : List ℤ).getD (0 * 4 + 1) 0 = 150 ∧
         ([100, 150, 200, 255] : List ℤ).getD (0 * 4 + 2) 0 = 200))) :=
  computeMask_spec ⟨1, 1, [100, 150, 200, 255]⟩ 100 150 200 0
    (by norm_num) ⟨by norm_num, by norm_num⟩ ⟨by norm_num, by norm_num⟩
    ⟨by norm_num, by norm_num⟩ 0 (by norm_num)

/-- One picked entry, as pushed by `onImageClick` in
`terrain_extractor_app.js`: `picked.push({ color: rgb, label, contours })`. -/
structure PickedFeature where
  color : ℕ × ℕ × ℕ
  label : String
  contours : List (List (ℚ × ℚ))

/-- Embedding of the collector update `picked.push({...})`: JavaScript
`Array.prototype.push` appends at the end of the list. -/
def addFeature (picked : List PickedFeature) (f : PickedFeature) :
    List PickedFeature :=
  picked ++ [f]

/-- Listing the collected features reads the `picked` array as is; the source
never sorts, filters or deduplicates it. -/
def listFeatures (picked : List PickedFeature) : List PickedFeature :=
  picked

theorem foldl_addFeature (fs : List PickedFeature) :
    ∀ acc : List PickedFeature, fs.foldl addFeature acc = acc ++ fs := by
  induction fs with
  | nil => intro acc; simp
  | cons f rest ih =>
      intro acc
      simp only [List.foldl_cons, ih, addFeature]
      simp

/-- C9: For every sequence of feature additions, listing the collected
features returns exactly the added entries in the order they were added —
duplicates are kept and no reordering or deduplication occurs. -/
theorem listFeatures_insertion_order (fs : List PickedFeature) :
    listFeatures (fs.foldl addFeature []) = fs := by
  rw [listFeatures, foldl_addFeature]
  simp

/-- JSON values, as built by `exportGeoJSON` in `lib/export.ts` and
serialized by `JSON.stringify`. -/
inductive Json where
  | null : Json
  | num : ℚ → Json
  | str : String → Json
  | arr : List Json → Json
  | obj : List (String × Json) → Json

/-- Field lookup on a JSON object (first match wins, as in a JS object
literal without duplicate keys). -/
def Json.lookup : Json → String → Option Json
  | Json.obj fields, k => fields.lookup k
  | _, _ => none

/-- JavaScript array destructuring `[x, y] = e` for an array `e`: a missing
component is `undefined`, which `JSON.stringify` writes as `null` inside an
array. -/
def optNum : Option ℚ → Json
  | some q => Json.num q
  | none => Json.null

/-- Embedding of the coordinate mapping `ring.map(([x, y]) => [x, y])` in
`exportGeoJSON` under JS destructuring semantics: each entry contributes
exactly its first two components, `null` standing for a missing one. -/
def coordJson (entry : List ℚ) : Json :=
  Json.arr [optNum (entry.get? 0), optNum (entry.get? 1)]

/-- The `properties.color` string in `exportGeoJSON`:
`` `rgb(${color.join(",")})` ``. -/
def colorString (color : ℕ × ℕ × ℕ) : String :=
  "rgb(" ++ toString color.1 ++ "," ++ toString color.2.1 ++ "," ++
    toString color.2.2 ++ ")"

/-- One Feature object of `exportGeoJSON` in `lib/export.ts`:

    {
      type: "Feature",
      geometry: { type: "Polygon", coordinates: [ring.map(([x, y]) => [x, y])] },
      properties: { id: i, color: `rgb(${color.join(",")})` }
    }
-/
def featureJson (color : ℕ × ℕ × ℕ) (i : ℕ) (ring : List (List ℚ)) : Json :=
  Json.obj [
    ("type", Json.str ("Feature")),
    ("geometry", Json.obj [
      ("type", Json.str ("Polygon")),
      ("coordinates", Json.arr [Json.arr (ring.map coordJson)])]),
    ("properties", Json.obj [
      ("id", Json.num i),
      ("color", Json.str (colorString color))])]

/-- Embedding of `exportGeoJSON(polygons, color)` from `lib/export.ts`: the
constructed `FeatureCollection` document. The source's only further steps
are `JSON.stringify` and writing the blob to a file, both outside the
document construction. -/
def exportGeoJSON (polygons : List (List (List ℚ))) (color : ℕ × ℕ × ℕ) :
    Json :=
  Json.obj [
    ("type", Json.str ("FeatureCollection")),
    ("features", Json.arr
      (polygons.mapIdx (fun i ring => featureJson color i ring)))]

/-- Model of `JSON.stringify` restricted to the documents produced here: a
deterministic rendering of the JSON tree (string escaping and the 2-space
indentation of the source's `JSON.stringify(geojson, null, 2)` are not
reproduced; no document produced by `exportGeoJSON` needs escaping). -/
def Json.serialize : Json → String
  | Json.null => "null"
  | Json.num q => toString q
  | Json.str s => "\"" ++ s ++ "\""
  | Json.arr xs =>
      "[" ++ String.intercalate (",")
        (xs.attach.map (fun x => Json.serialize x.1)) ++ "]"
  | Json.obj fields =>
      "\x7b" ++ String.intercalate (",")
        (fields.attach.map
          (fun f => "\"" ++ f.1.1 ++ "\":" ++ Json.serialize f.1.2)) ++ "\x7d"
decreasing_by
  · simp only [Json.arr.sizeOf_spec]
    have h := List.sizeOf_lt_of_mem x.2
    omega
  · simp only [Json.obj.sizeOf_spec]
    have h := List.sizeOf_lt_of_mem f.2
    have h2 : sizeOf f.1.2 < sizeOf f.1 := by
      obtain ⟨⟨a, b⟩, hf⟩ := f
      simp only [Prod.mk.sizeOf_spec]
      omega
    omega

/-- Shared helper: the document of `exportGeoJSON` has a `features` array of
the same length as the input, whose `i`-th element is the `i`-th Feature. -/
theorem exportGeoJSON_feature_at (polygons : List (List (List ℚ)))
    (color : ℕ × ℕ × ℕ) (i : ℕ) (hi : i < polygons.length) :
    (exportGeoJSON polygons color).lookup ("features") =
      some (Json.arr (polygons.mapIdx (fun k ring => featureJson color k ring))) ∧
    (polygons.mapIdx (fun k ring => featureJson color k ring)).length =
      polygons.length ∧
    (polygons.mapIdx (fun k ring => featureJson color k ring)).getD i Json.null =
      featureJson color i (polygons.getD i []) := by
  refine ⟨?_, ?_, ?_⟩
  · simp [exportGeoJSON, Json.lookup, List.lookup]
  · exact List.length_mapIdx
  · have hlen : i <
        (polygons.mapIdx (fun k ring => featureJson color k ring)).length := by
      rw [List.length_mapIdx]; exact hi
    rw [List.getD_eq_getElem _ _ hlen, List.getD_eq_getElem _ _ hi]
    have h := List.get_mapIdx polygons (fun k ring => featureJson color k ring) i hi
    simp only [List.get_eq_getElem] at h
    exact h

/-- C3: For every list of `n` contour rings of 2-tuples and every color
`(r, g, b)`, the document's features array has exactly `n` entries in input
order; the `i`-th is a Feature whose geometry is a Polygon whose coordinates
are the singleton list containing the `i`-th input ring with every pair
unchanged, with `properties.id = i` and `properties.color = "rgb(r,g,b)"`. -/
theorem exportGeoJSON_spec (rings : List (List (ℚ × ℚ))) (r g b : ℕ)
    (i : ℕ) (hi : i < rings.length) :
    ∃ fs : List Json,
      (exportGeoJSON (rings.map (fun ring => ring.map (fun p => [p.1, p.2])))
        (r, g, b)).lookup ("features") = some (Json.arr fs) ∧
      fs.length = rings.length ∧
      fs.getD i Json.null = Json.obj [
        ("type", Json.str ("Feature")),
        ("geometry", Json.obj [
          ("type", Json.str ("Polygon")),
          ("coordinates", Json.arr [Json.arr ((rings.getD i []).map
            (fun p => Json.arr [Json.num p.1, Json.num p.2]))])]),
        ("properties", Json.obj [
          ("id", Json.num i),
          ("color", Json.str ("rgb(" ++ toString r ++ "," ++ toString g ++
            "," ++ toString b ++ ")"))])] := by
  have hlen : i < (rings.map (fun ring => ring.map
      (fun p : ℚ × ℚ => [p.1, p.2]))).length := by
    rw [List.length_map]; exact hi
  obtain ⟨h1, h2, h3⟩ := exportGeoJSON_feature_at
    (rings.map (fun ring => ring.map (fun p => [p.1, p.2]))) (r, g, b) i hlen
  refine ⟨_, h1, ?_, ?_⟩
  · rw [h2, List.length_map]
  · rw [h3]
    have hring : (rings.map (fun ring => ring.map
        (fun p : ℚ × ℚ => [p.1, p.2]))).getD i [] =
        (rings.getD i []).map (fun p : ℚ × ℚ => [p.1, p.2]) := by
      rw [List.getD_eq_getElem _ _ hlen, List.getD_eq_getElem _ _ hi,
        List.getElem_map]
    rw [hring, featureJson]
    have hcoords : ((rings.getD i []).map
        (fun p : ℚ × ℚ => [p.1, p.2])).map coordJson =
        (rings.getD i []).map
          (fun p : ℚ × ℚ => Json.arr [Json.num p.1, Json.num p.2]) := by
      rw [List.map_map]
      rfl
    rw [hcoords, colorString]

/-- Witness for C3 at the spec's example: one rectangular ring
`[[0,0],[10,0],[10,10],[0,10],[0,0]]` with color `(255,0,0)`. -/
theorem exportGeoJSON_spec_witness :
    ∃ fs : List Json,
      (exportGeoJSON
        ([[(0, 0), (10, 0), (10, 10), (0, 10), (0, 0)]].map
          (fun ring => ring.map (fun p => [p.1, p.2])))
        (255, 0, 0)).lookup ("features") = some (Json.arr fs) ∧
      fs.length = ([[(0, 0), (10, 0), (10, 10), (0, 10),
        (0, 0)]] : List (List (ℚ × ℚ))).length ∧
      fs.getD 0 Json.null = Json.obj [
        ("type", Json.str ("Feature")),
        ("geometry", Json.obj [
          ("type", Json.str ("Polygon")),
          ("coordinates", Json.arr [Json.arr
            ((([[(0, 0), (10, 0), (10, 10), (0, 10),
              (0, 0)]] : List (List (ℚ × ℚ))).getD 0 []).map
              (fun p => Json.arr [Json.num p.1, Json.num p.2]))])]),
        ("properties", Json.obj [
          ("id", Json.num 0),
          ("color", Json.str ("rgb(" ++ toString 255 ++ "," ++ toString 0 ++
            "," ++ toString 0 ++ ")"))])] :=
  exportGeoJSON_spec [[(0, 0), (10, 0), (10, 10), (0, 10), (0, 0)]] 255 0 0 0
    (by norm_num)

/-- C4 counterexample: `exportGeoJSON` performs no validation of contour
entries. On the malformed ring `[[1,2,3],[4]]` — whose entries are not
2-tuples — it signals no error and coerces the input into a complete
document: `[1,2,3]` is truncated to `[1,2]` and `[4]` becomes `[4,null]`.
This refutes the claim that a `MalformedContour` error is signalled and that
malformed input is never silently coerced. -/
theorem exportGeoJSON_malformed_counterexample :
    exportGeoJSON [[[1, 2, 3], [4]]] (255, 0, 0) =
      Json.obj [
        ("type", Json.str ("FeatureCollection")),
        ("features", Json.arr [
          Json.obj [
            ("type", Json.str ("Feature")),
            ("geometry", Json.obj [
              ("type", Json.str ("Polygon")),
              ("coordinates", Json.arr [Json.arr [
                Json.arr [Json.num 1, Json.num 2],
                Json.arr [Json.num 4, Json.null]]])]),
            ("properties", Json.obj [
              ("id", Json.num 0),
              ("color", Json.str ("rgb(255,0,0)"))])]])] := by
  rfl

/-- C4 amended: serialization never signals an error on malformed contour
entries. For every input — 2-tuples or not — it produces a complete
document in which each entry of each ring is silently coerced to its first
two components, a missing component becoming `null`. -/
theorem exportGeoJSON_malformed_coerces (polygons : List (List (List ℚ)))
    (r g b : ℕ) (i : ℕ) (hi : i < polygons.length) :
    ∃ fs : List Json,
      (exportGeoJSON polygons (r, g, b)).lookup ("features") =
        some (Json.arr fs) ∧
      fs.length = polygons.length ∧
      fs.getD i Json.null = Json.obj [
        ("type", Json.str ("Feature")),
        ("geometry", Json.obj [
          ("type", Json.str ("Polygon")),
          ("coordinates", Json.arr [Json.arr ((polygons.getD i []).map
            (fun entry => Json.arr [optNum (entry.get? 0),
              optNum (entry.get? 1)]))])]),
        ("properties", Json.obj [
          ("id", Json.num i),
          ("color", Json.str (colorString (r, g, b)))])] := by
  obtain ⟨h1, h2, h3⟩ := exportGeoJSON_feature_at polygons (r, g, b) i hi
  exact ⟨_, h1, h2, h3⟩

/-- Witness for the amended C4 at the malformed input `[[[1,2,3],[4]]]`. -/
theorem exportGeoJSON_malformed_coerces_witness :
    ∃ fs : List Json,
      (exportGeoJSON [[[1, 2, 3], [4]]] (255, 0, 0)).lookup ("features") =
        some (Json.arr fs) ∧
      fs.length = ([[[1, 2, 3], [4]]] : List (List (List ℚ))).length ∧
      fs.getD 0 Json.null = Json.obj [
        ("type", Json.str ("Feature")),
        ("geometry", Json.obj [
          ("type", Json.str ("Polygon")),
          ("coordinates", Json.arr [Json.arr
            ((([[[1, 2, 3], [4]]] : List (List (List ℚ))).getD 0 []).map
            (fun entry => Json.arr [optNum (entry.get? 0),
              optNum (entry.get? 1)]))])]),
        ("properties", Json.obj [
          ("id", Json.num 0),
          ("color", Json.str (colorString (255, 0, 0)))])] :=
  exportGeoJSON_malformed_coerces [[[1, 2, 3], [4]]] 255 0 0 0 (by norm_num)

/-- C7: Exporting an empty feature list succeeds and produces a valid
`FeatureCollection` document whose features array is empty. -/
theorem exportGeoJSON_empty (c : ℕ × ℕ × ℕ) :
    exportGeoJSON [] c =
      Json.obj [
        ("type", Json.str ("FeatureCollection")),
        ("features", Json.arr [])] := by
  rfl

/-- C8 counterexample: `setGeoBounds` performs no validation. Called with
`north = 0, south = 1, east = 0, west = 1` — so `west ≥ east` and
`south ≥ north` — it signals no `InvalidBounds` error and stores a
`GeoBounds` violating the invariant `west < east ∧ south < north`. -/
theorem setGeoBounds_counterexample :
    setGeoBounds 0 1 0 1 =
      { west := 1, east := 0, north := 0, south := 1 } ∧
    ¬((setGeoBounds 0 1 0 1).west < (setGeoBounds 0 1 0 1).east) ∧
    ¬((setGeoBounds 0 1 0 1).south < (setGeoBounds 0 1 0 1).north) := by
  refine ⟨rfl, ?_, ?_⟩ <;> · rw [setGeoBounds]; norm_num

/-- C8 amended: `setGeoBounds` stores the supplied values unconditionally —
it never signals an error, and the stored `GeoBounds` need not satisfy
`west < east` or `south < north`. -/
theorem setGeoBounds_stores_unconditionally (north south east west : ℚ) :
    setGeoBounds north south east west =
      { west := west, east := east, north := north, south := south } := by
  rfl

/-- C10: `exportGeoJSON` is deterministic and self-contained — for any two
calls with equal polygon lists and equal colors, the constructed documents
and their serialized contents are identical. (Self-containedness is visible
in the embedding's type: the document is a function of exactly these two
arguments and nothing else.) -/
theorem exportGeoJSON_deterministic (p1 p2 : List (List (List ℚ)))
    (c1 c2 : ℕ × ℕ × ℕ) (hp : p1 = p2) (hc : c1 = c2) :
    exportGeoJSON p1 c1 = exportGeoJSON p2 c2 ∧
    (exportGeoJSON p1 c1).serialize = (exportGeoJSON p2 c2).serialize := by
  subst hp
  subst hc
  exact ⟨rfl, rfl⟩

/-- Witness for C10 at a concrete input. -/
theorem exportGeoJSON_deterministic_witness :
    exportGeoJSON [[[0, 0], [10, 0]]] (255, 0, 0) =
      exportGeoJSON [[[0, 0], [10, 0]]] (255, 0, 0) ∧
    (exportGeoJSON [[[0, 0], [10, 0]]] (255, 0, 0)).serialize =
      (exportGeoJSON [[[0, 0], [10, 0]]] (255, 0, 0)).serialize :=
  exportGeoJSON_deterministic [[[0, 0], [10, 0]]] [[[0, 0], [10, 0]]]
    (255, 0, 0) (255, 0, 0) rfl rfl

end Terrain
